import Mathlib

/-!
Verification of the pswalker alignment core (`pswalker/walker/iterwalk.py`,
`pswalker/skywalker.py`) against its natural-language specification.

The closed-form geometry solves `alpha1` and `alpha2` are embedded over the
real numbers; their `t=True` branches (sympy `nsolve` numeric root-finding)
are out of scope of the shallow embedding.  The `IterWalker` controller is
embedded as explicit state passing over a record of device states and
internal angle estimates, with actuator writes recorded in an explicit log.
The Skywalker dispatcher is embedded together with the Python name-resolution
fact that drives its actual behaviour (the unbound name `kwargs`).
-/

namespace Pswalker

/-- Closed-form solve for the mirror-1 pitch angle, `alpha1` with `t=False`
in `iterwalk.py`: the expression `(B1 - sqrt(D1)) / (4*(d4 - d5))`,
transcribed term by term from the source. -/
noncomputable def alpha1 (x0 xp0 a2 d2 d4 d5 m1hdx m2hdx x : ℝ) : ℝ :=
  (-a2*d2 + 4*a2*d4 - 3*a2*d5 + 2*d4*xp0 - 2*d5*xp0 - m2hdx + x -
      Real.sqrt (a2^2*d2^2 - 8*a2^2*d2*d4 + 6*a2^2*d2*d5 +
        8*a2^2*d4^2 - 8*a2^2*d4*d5 + a2^2*d5^2 -
        4*a2*d2*d4*xp0 + 4*a2*d2*d5*xp0 + 2*a2*d2*m2hdx -
        2*a2*d2*x + 8*a2*d4*m1hdx - 8*a2*d4*m2hdx + 4*a2*d4*x -
        4*a2*d4*x0 - 8*a2*d5*m1hdx + 6*a2*d5*m2hdx - 2*a2*d5*x +
        4*a2*d5*x0 + m2hdx^2 - 2*m2hdx*x + x^2)) /
    (4*(d4 - d5))

/-- Closed-form solve for the mirror-2 pitch angle, `alpha2` with `t=False`
in `iterwalk.py`: the expression `(B2 + sqrt(D2)) / (4*(d4 - d6))`,
transcribed term by term from the source. -/
noncomputable def alpha2 (x0 xp0 a1 d2 d4 d6 m1hdx m2hdx x : ℝ) : ℝ :=
  (-2*a1*d2 + 8*a1*d4 - 6*a1*d6 - 4*d4*xp0 + 3*d6*xp0 + 2*m1hdx -
      x - x0 + Real.sqrt (
        4*a1^2*d2^2 - 32*a1^2*d2*d4 + 24*a1^2*d2*d6 +
        32*a1^2*d4^2 - 32*a1^2*d4*d6 + 4*a1^2*d6^2 +
        16*a1*d2*d4*xp0 - 12*a1*d2*d6*xp0 - 8*a1*d2*m1hdx +
        4*a1*d2*x + 4*a1*d2*x0 - 32*a1*d4^2*xp0 +
        32*a1*d4*d6*xp0 + 32*a1*d4*m1hdx - 16*a1*d4*m2hdx -
        16*a1*d4*x0 - 4*a1*d6^2*xp0 - 24*a1*d6*m1hdx +
        16*a1*d6*m2hdx - 4*a1*d6*x + 12*a1*d6*x0 + 8*d4^2*xp0^2 -
        8*d4*d6*xp0^2 - 16*d4*m1hdx*xp0 + 8*d4*m2hdx*xp0 +
        8*d4*x0*xp0 + d6^2*xp0^2 + 12*d6*m1hdx*xp0 -
        8*d6*m2hdx*xp0 + 2*d6*x*xp0 - 6*d6*x0*xp0 + 4*m1hdx^2 -
        4*m1hdx*x - 4*m1hdx*x0 + x^2 + 2*x*x0 + x0^2)) /
    (4*(d4 - d6))

/-- The linear part (no-square-root part) of the `alpha1` numerator. -/
def alpha1_B (x0 xp0 a2 d2 d4 d5 m1hdx m2hdx x : ℝ) : ℝ :=
  -a2*d2 + 4*a2*d4 - 3*a2*d5 + 2*d4*xp0 - 2*d5*xp0 - m2hdx + x

/-- The discriminant under the square root in `alpha1`. -/
def alpha1_D (x0 xp0 a2 d2 d4 d5 m1hdx m2hdx x : ℝ) : ℝ :=
  a2^2*d2^2 - 8*a2^2*d2*d4 + 6*a2^2*d2*d5 +
    8*a2^2*d4^2 - 8*a2^2*d4*d5 + a2^2*d5^2 -
    4*a2*d2*d4*xp0 + 4*a2*d2*d5*xp0 + 2*a2*d2*m2hdx -
    2*a2*d2*x + 8*a2*d4*m1hdx - 8*a2*d4*m2hdx + 4*a2*d4*x -
    4*a2*d4*x0 - 8*a2*d5*m1hdx + 6*a2*d5*m2hdx - 2*a2*d5*x +
    4*a2*d5*x0 + m2hdx^2 - 2*m2hdx*x + x^2

/-- The divisor of the `alpha1` closed form: `4*(d4 - d5)`, where `d4` is
mirror 2's z-position and `d5` is the z-position of imager 1 (the call
site `_alpha_1_calc` passes `self.mirror_2.z` for `d4` and
`self.imager_1.z` for `d5`). -/
def alpha1_denom (d4 d5 : ℝ) : ℝ := 4*(d4 - d5)

/-- The linear part (no-square-root part) of the `alpha2` numerator. -/
def alpha2_B (x0 xp0 a1 d2 d4 d6 m1hdx m2hdx x : ℝ) : ℝ :=
  -2*a1*d2 + 8*a1*d4 - 6*a1*d6 - 4*d4*xp0 + 3*d6*xp0 + 2*m1hdx - x - x0

/-- The discriminant under the square root in `alpha2`. -/
def alpha2_D (x0 xp0 a1 d2 d4 d6 m1hdx m2hdx x : ℝ) : ℝ :=
  4*a1^2*d2^2 - 32*a1^2*d2*d4 + 24*a1^2*d2*d6 +
    32*a1^2*d4^2 - 32*a1^2*d4*d6 + 4*a1^2*d6^2 +
    16*a1*d2*d4*xp0 - 12*a1*d2*d6*xp0 - 8*a1*d2*m1hdx +
    4*a1*d2*x + 4*a1*d2*x0 - 32*a1*d4^2*xp0 +
    32*a1*d4*d6*xp0 + 32*a1*d4*m1hdx - 16*a1*d4*m2hdx -
    16*a1*d4*x0 - 4*a1*d6^2*xp0 - 24*a1*d6*m1hdx +
    16*a1*d6*m2hdx - 4*a1*d6*x + 12*a1*d6*x0 + 8*d4^2*xp0^2 -
    8*d4*d6*xp0^2 - 16*d4*m1hdx*xp0 + 8*d4*m2hdx*xp0 +
    8*d4*x0*xp0 + d6^2*xp0^2 + 12*d6*m1hdx*xp0 -
    8*d6*m2hdx*xp0 + 2*d6*x*xp0 - 6*d6*x0*xp0 + 4*m1hdx^2 -
    4*m1hdx*x - 4*m1hdx*x0 + x^2 + 2*x*x0 + x0^2

/-- The divisor of the `alpha2` closed form: `4*(d4 - d6)`, where `d4` is
mirror 2's z-position and `d6` is the z-position of imager 2 (the call
site `_alpha_2_calc` passes `self.mirror_2.z` for `d4` and
`self.imager_2.z` for `d6`). -/
def alpha2_denom (d4 d6 : ℝ) : ℝ := 4*(d4 - d6)

/-- The degeneracy behaviour the spec claims: whenever the two mirror
z-positions (`d2` and `d4`) coincide, both closed-form divisors vanish
(the "degenerate-geometry error").  Written from the spec's words for
comparison with the divisors of the code. -/
def degenerateWhenMirrorZsEqual (d2 d4 d5 d6 : ℝ) : Prop :=
  d2 = d4 → alpha1_denom d4 d5 = 0 ∧ alpha2_denom d4 d6 = 0

/-- A Python value, as far as `IterWalker.align`'s `move` argument is
concerned.  The guard `if move is True:` in the source is an identity
test against the boolean `True`, so it distinguishes `True` from truthy
non-boolean values such as the integer `1`. -/
inductive PyVal where
  | pyBool : Bool → PyVal
  | pyInt : Int → PyVal
  | pyNone : PyVal
deriving DecidableEq

/-- The beam source device: readbacks `x` (position) and `xp` (angle). -/
structure Source where
  x : ℝ
  xp : ℝ

/-- A steering-mirror device: x-offset, z-position and pitch angle. -/
structure Mirror where
  x : ℝ
  z : ℝ
  alpha : ℝ

/-- An imager device: x-offset, z-position, image width in pixels
(`image_xsz`) and meters-per-pixel calibration (`mppix`). -/
structure Imager where
  x : ℝ
  z : ℝ
  image_xsz : ℝ
  mppix : ℝ

/-- The `IterWalker` object state: the device handles it holds, the
target pixels `p1`/`p2`, the iteration budget `max_n`, and the internal
angle estimates `_alpha_1`/`_alpha_2`.  The `tan` flag is fixed to its
default `False` (the `t=True` sympy branch is outside this embedding),
and `p1`/`p2` are modelled in their numeric state (the `None` default
only exists before they are set). -/
structure IterWalker where
  source : Source
  mirror_1 : Mirror
  mirror_2 : Mirror
  imager_1 : Imager
  imager_2 : Imager
  p1 : ℝ
  p2 : ℝ
  max_n : ℕ
  alpha_1 : ℝ
  alpha_2 : ℝ

namespace IterWalker

/-- `IterWalker.__init__`: stores the device handles and target pixels and
initialises the internal estimates `_alpha_1`/`_alpha_2` from the mirrors'
current angles. -/
def init (source : Source) (mirror_1 mirror_2 : Mirror)
    (imager_1 imager_2 : Imager) (p1 p2 : ℝ) (max_n : ℕ) : IterWalker :=
  { source := source, mirror_1 := mirror_1, mirror_2 := mirror_2,
    imager_1 := imager_1, imager_2 := imager_2, p1 := p1, p2 := p2,
    max_n := max_n, alpha_1 := mirror_1.alpha, alpha_2 := mirror_2.alpha }

/-- The `goal_x_1` property:
`imager_1.x + (p1 - imager_1.image_xsz/2 + 1)*imager_1.mppix`. -/
noncomputable def goal_x_1 (s : IterWalker) : ℝ :=
  s.imager_1.x + (s.p1 - s.imager_1.image_xsz/2 + 1) * s.imager_1.mppix

/-- The `goal_x_2` property:
`imager_2.x + (p2 - imager_2.image_xsz/2 + 1)*imager_2.mppix`. -/
noncomputable def goal_x_2 (s : IterWalker) : ℝ :=
  s.imager_2.x + (s.p2 - s.imager_2.image_xsz/2 + 1) * s.imager_2.mppix

/-- `IterWalker._alpha_1_calc`: calls `alpha1` on the freshly read source
state and geometry, the stored estimate `self._alpha_2`, and `goal_x_1`. -/
noncomputable def alpha_1_calc (s : IterWalker) : ℝ :=
  alpha1 s.source.x s.source.xp s.alpha_2 s.mirror_1.z s.mirror_2.z
    s.imager_1.z s.mirror_1.x s.mirror_2.x s.goal_x_1

/-- `IterWalker._alpha_2_calc`: calls `alpha2` on the freshly read source
state and geometry, the stored estimate `self._alpha_1`, and `goal_x_2`. -/
noncomputable def alpha_2_calc (s : IterWalker) : ℝ :=
  alpha2 s.source.x s.source.xp s.alpha_1 s.mirror_1.z s.mirror_2.z
    s.imager_2.z s.mirror_1.x s.mirror_2.x s.goal_x_2

/-- `IterWalker._move_mirrors`: writes `alpha_1` to mirror 1 and `alpha_2`
to mirror 2, returning the updated state together with the log of actuator
writes performed. -/
def move_mirrors (s : IterWalker) (a1 a2 : ℝ) :
    IterWalker × List (String × ℝ) :=
  ({ s with mirror_1 := { s.mirror_1 with alpha := a1 },
            mirror_2 := { s.mirror_2 with alpha := a2 } },
   [("mirror_1.alpha", a1), ("mirror_2.alpha", a2)])

/-- `IterWalker.step`: returns the pair
`(self._alpha_1_calc(), self._alpha_2_calc())`.  Both calls are made on
the same (unchanged) state: the first result is not written back to
`self._alpha_1` before the second call, and no device is written. -/
noncomputable def step (s : IterWalker) : ℝ × ℝ :=
  (s.alpha_1_calc, s.alpha_2_calc)

/-- One body of the `for` loop in `IterWalker.align`:
`self._alpha_1 = self._alpha_1_calc()` followed by
`self._alpha_2 = self._alpha_2_calc()` (the second assignment sees the
first one's update). -/
noncomputable def refine (s : IterWalker) : IterWalker :=
  let s1 := { s with alpha_1 := s.alpha_1_calc }
  { s1 with alpha_2 := s1.alpha_2_calc }

/-- `IterWalker.align(p1, p2, move)`: optionally overwrites the stored
targets, runs the loop body `max_n` times unconditionally, then moves the
mirrors only under the guard `if move is True:`, and returns
`(self._alpha_1, self._alpha_2)`.  The result carries the final object
state, the actuator write log, and the returned pair. -/
noncomputable def align (s : IterWalker) (p1 p2 : Option ℝ) (move : PyVal) :
    IterWalker × List (String × ℝ) × (ℝ × ℝ) :=
  let s0 : IterWalker := { s with p1 := p1.getD s.p1, p2 := p2.getD s.p2 }
  let s1 := refine^[s0.max_n] s0
  let moved := if move = PyVal.pyBool true
    then s1.move_mirrors s1.alpha_1 s1.alpha_2 else (s1, [])
  (moved.1, moved.2, (s1.alpha_1, s1.alpha_2))

end IterWalker

/-- The exception taxonomy reachable from `Skywalker.walk`: Python's
`NameError` (unbound name), the package's `CNCException`, and
`NotImplementedError`. -/
inductive PyError where
  | nameError : PyError
  | cncException : PyError
  | notImplementedError : PyError
deriving DecidableEq

/-- One device-I/O action (a read from or a write to a device adapter),
identified by a readback/setpoint name. -/
inductive DeviceOp where
  | read : String → DeviceOp
  | write : String → DeviceOp
deriving DecidableEq

/-- The `Skywalker` object state: the presence of a fitted model, a
requested saved-model name, the lazily created helper objects, and the
target pixels.  The helper objects' own classes live outside `src`, so
only their presence is tracked. -/
structure Skywalker where
  model : Option Unit
  load_model : Option String
  iter_walker : Option Unit
  model_walker : Option Unit
  model_builder : Option Unit
  p1 : ℝ
  p2 : ℝ

namespace Skywalker

/-- Python name resolution for the identifier `kwargs` inside the method
bodies of `Skywalker.walk`, `_modelwalk`, `_modelbuild` and `_iterwalk`:
`kwargs` is not a parameter of these methods, not a local, not a module
global and not a builtin, so no binding exists and evaluating it raises
`NameError`. -/
def kwargsBinding : Option (List (String × PyVal)) := none

/-- A bound method object (such as `self._converged` without a call) is a
truthy Python value. -/
def boundMethodTruthy : Bool := true

/-- The loop guard of `_iterwalk`: `while not self._converged:` negates
the bound method object itself (the method is never called), so the guard
is the negation of a truthy value — constantly false. -/
def iterLoopGuard : Bool := !boundMethodTruthy

/-- `Skywalker._iterwalk`: its first statement
`self.iter_walker = kwargs.get("iter_walker", self.iter_walker)` evaluates
the unbound name `kwargs`; were that name bound, the `while` loop would
run zero times because `iterLoopGuard` is false. -/
def iterwalkRun (s : Skywalker) : List DeviceOp × Except PyError Skywalker :=
  match kwargsBinding with
  | none => ([], Except.error PyError.nameError)
  | some _ => ([], Except.ok s)

/-- One committed model-step.  Modelled from the spec: `ModelWalker.step`
(its class is not under `src`) performs exactly one committed model-step,
writing both mirror angles. -/
def modelStepOps : List DeviceOp :=
  [DeviceOp.write "mirror_1.alpha", DeviceOp.write "mirror_2.alpha"]

/-- `Skywalker._modelwalk`: its first statement
`self.model = kwargs.get("model", self.model)` evaluates the unbound name
`kwargs`; were that name bound, it would load a saved model when
`load_model` is truthy, raise `CNCException` when no model exists, and
otherwise perform one committed model-step. -/
def modelwalkRun (s : Skywalker) : List DeviceOp × Except PyError Skywalker :=
  match kwargsBinding with
  | none => ([], Except.error PyError.nameError)
  | some _ =>
    if s.load_model.isSome then (modelStepOps, Except.ok s)
    else if s.model.isNone then ([], Except.error PyError.cncException)
    else (modelStepOps, Except.ok s)

/-- `Skywalker._modelbuild`: its first statement
`self.model_builder = kwargs.get("model_builder", self.model_builder)`
evaluates the unbound name `kwargs`; were that name bound, it would build
a model and perform one committed model-step. -/
def modelbuildRun (s : Skywalker) : List DeviceOp × Except PyError Skywalker :=
  match kwargsBinding with
  | none => ([], Except.error PyError.nameError)
  | some _ => (modelStepOps, Except.ok s)

/-- `Skywalker.walk(mode)`: its first statement
`self.p1 = kwargs.get("p1", 0)` evaluates the unbound name `kwargs` and
raises `NameError` before the mode dispatch and before any device I/O;
were that name bound, the dispatch would select `_iterwalk`, `_modelwalk`,
`_modelbuild`, `raise NotImplementedError` for `"auto"`, or
`raise CNCException` for an unknown mode. -/
def walk (s : Skywalker) (mode : String) :
    List DeviceOp × Except PyError Skywalker :=
  match kwargsBinding with
  | none => ([], Except.error PyError.nameError)
  | some _ =>
    if mode = "iter" then s.iterwalkRun
    else if mode = "model" then s.modelwalkRun
    else if mode = "build" then s.modelbuildRun
    else if mode = "auto" then ([], Except.error PyError.notImplementedError)
    else ([], Except.error PyError.cncException)

end Skywalker

/-- A concrete `Skywalker` with no model available and no load request. -/
noncomputable def noModelSky : Skywalker :=
  { model := none, load_model := none, iter_walker := none,
    model_walker := none, model_builder := none, p1 := 0, p2 := 0 }

/-- A concrete `IterWalker` state used to evaluate the solver call chain:
source on axis, mirror 1 at z = 0, mirror 2 at z = 2, both imagers at
z = 1 with `x = -1`, 2-pixel-wide images, 1 m/pixel, targets at pixel 0,
zero angle estimates.  Both goal values evaluate to -1 and all square-root
arguments along the evaluations below are perfect squares. -/
noncomputable def exState : IterWalker :=
  { source := { x := 0, xp := 0 },
    mirror_1 := { x := 0, z := 0, alpha := 0 },
    mirror_2 := { x := 0, z := 2, alpha := 0 },
    imager_1 := { x := -1, z := 1, image_xsz := 2, mppix := 1 },
    imager_2 := { x := -1, z := 1, image_xsz := 2, mppix := 1 },
    p1 := 0, p2 := 0, max_n := 200, alpha_1 := 0, alpha_2 := 0 }

/-- `exState` with the mirror-2 device angle moved to `6/17` while the
walker's internal estimate `_alpha_2` still holds the value `0` read at
construction time. -/
noncomputable def exStateStale : IterWalker :=
  { exState with mirror_2 := { exState.mirror_2 with alpha := 6/17 } }

/-- A concrete `IterWalker` with an exhausted (zero) iteration budget and
nonzero angle estimates distinct from the device angles. -/
noncomputable def zeroBudgetWalker : IterWalker :=
  { exState with max_n := 0, alpha_1 := 3, alpha_2 := 5 }

/-- Helper: the loop body of `align` only rewrites the internal estimates
`_alpha_1`/`_alpha_2`; iterating it any number of times leaves every
device field (in particular both mirrors) untouched. -/
theorem refine_iterate_devices (n : ℕ) (s : IterWalker) :
    (IterWalker.refine^[n] s).mirror_1 = s.mirror_1 ∧
      (IterWalker.refine^[n] s).mirror_2 = s.mirror_2 := by
  induction n generalizing s with
  | zero => exact ⟨rfl, rfl⟩
  | succ n ih =>
    rw [Function.iterate_succ_apply]
    exact ih (IterWalker.refine s)

/-- Helper: evaluation of `goal_x_1` at the example state. -/
theorem goal_x_1_exState : IterWalker.goal_x_1 exState = -1 := by
  unfold IterWalker.goal_x_1 exState; norm_num

/-- Helper: evaluation of `goal_x_2` at the example state. -/
theorem goal_x_2_exState : IterWalker.goal_x_2 exState = -1 := by
  unfold IterWalker.goal_x_2 exState; norm_num

/-- Helper: the first component returned by `step` at the example state. -/
theorem step_exState_fst : (IterWalker.step exState).1 = -(1/2) := by
  show IterWalker.alpha_1_calc exState = -(1/2)
  unfold IterWalker.alpha_1_calc alpha1 IterWalker.goal_x_1 exState
  norm_num

/-- Helper: the second component returned by `step` at the example state:
the `alpha2` solve evaluated at the stored estimate `_alpha_1 = 0`. -/
theorem step_exState_snd : (IterWalker.step exState).2 = 1/2 := by
  show IterWalker.alpha_2_calc exState = 1/2
  unfold IterWalker.alpha_2_calc alpha2 IterWalker.goal_x_2 exState
  norm_num

/-- Helper: the `alpha2` solve at the example state's geometry evaluated
at the freshly computed mirror-1 angle `-(1/2)` instead. -/
theorem alpha2_fresh_exState : alpha2 0 0 (-(1/2)) 0 2 1 0 0 (-1) = 0 := by
  unfold alpha2
  have h : Real.sqrt 16 = 4 := by
    rw [show (16:ℝ) = 4^2 by norm_num, Real.sqrt_sq (by norm_num : (0:ℝ) ≤ 4)]
  norm_num [h]

/-- Helper: the `alpha1` solve at the example geometry evaluated at the
device's mirror-2 angle `6/17` instead of the stored estimate `0`. -/
theorem alpha1_device_exStateStale : alpha1 0 0 (6/17) 0 2 1 0 0 (-1) = -(1/17) := by
  unfold alpha1; norm_num

/-!  Claim theorems. -/

/-- Claim C1, counterexample: with the two mirror z-positions equal
(`d2 = d4 = 1`) and the imager z-positions at `2`, neither closed-form
divisor vanishes, so no degenerate-geometry division arises — refuting
"for every input in which mirror-1 z equals mirror-2 z, each closed-form
solve raises a degenerate-geometry error". -/
theorem C1_equal_mirror_z_not_degenerate :
    ¬ degenerateWhenMirrorZsEqual 1 1 2 2 := by
  intro h
  have h2 := h rfl
  unfold alpha1_denom alpha2_denom at h2
  norm_num at h2

/-- Claim C1, amended: the closed-form divisors are `4*(d4 - d5)` for
`alpha1` and `4*(d4 - d6)` for `alpha2`; they vanish exactly when
mirror 2's z-position equals the target imager's z-position, irrespective
of whether the two mirror z-positions coincide. -/
theorem C1_degenerate_iff_mirror2_z_eq_imager_z (d4 d5 d6 : ℝ) :
    (alpha1_denom d4 d5 = 0 ↔ d4 = d5) ∧
      (alpha2_denom d4 d6 = 0 ↔ d4 = d6) := by
  constructor
  · unfold alpha1_denom
    constructor
    · intro h
      have h4 : d4 - d5 = 0 := by linarith
      linarith
    · intro h; rw [h]; ring
  · unfold alpha2_denom
    constructor
    · intro h
      have h4 : d4 - d6 = 0 := by linarith
      linarith
    · intro h; rw [h]; ring

/-- Claim C2, counterexample: at `x0 = 1, x = 1, d4 = 1` (all other
arguments zero) the `alpha2` closed form returns `0`, while the
negative-square-root branch `(B - sqrt D) / (4*(d4 - d6))` of the same
coefficients is `-1` — refuting "each closed-form solve returns the value
`(B - sqrt(D)) / (4*denominator)`". -/
theorem C2_alpha2_not_negative_branch :
    alpha2 1 0 0 0 1 0 0 0 1 ≠
      (alpha2_B 1 0 0 0 1 0 0 0 1 - Real.sqrt (alpha2_D 1 0 0 0 1 0 0 0 1)) /
        alpha2_denom 1 0 := by
  have h : Real.sqrt 4 = 2 := by
    rw [show (4:ℝ) = 2^2 by norm_num, Real.sqrt_sq (by norm_num : (0:ℝ) ≤ 2)]
  have hL : alpha2 1 0 0 0 1 0 0 0 1 = 0 := by
    unfold alpha2; norm_num [h]
  have hR : (alpha2_B 1 0 0 0 1 0 0 0 1 -
      Real.sqrt (alpha2_D 1 0 0 0 1 0 0 0 1)) / alpha2_denom 1 0 = -1 := by
    unfold alpha2_B alpha2_D alpha2_denom; norm_num [h]
  rw [hL, hR]; norm_num

/-- Claim C2, amended: `alpha1` (with `t=False`) returns the
negative-square-root branch `(B1 - sqrt D1) / (4*(d4 - d5))` of its
coefficients, but `alpha2` (with `t=False`) returns the
positive-square-root branch `(B2 + sqrt D2) / (4*(d4 - d6))`. -/
theorem C2_closed_form_root_branches
    (x0 xp0 a d2 d4 d5 d6 m1hdx m2hdx x : ℝ) :
    alpha1 x0 xp0 a d2 d4 d5 m1hdx m2hdx x =
      (alpha1_B x0 xp0 a d2 d4 d5 m1hdx m2hdx x -
        Real.sqrt (alpha1_D x0 xp0 a d2 d4 d5 m1hdx m2hdx x)) /
          alpha1_denom d4 d5 ∧
    alpha2 x0 xp0 a d2 d4 d6 m1hdx m2hdx x =
      (alpha2_B x0 xp0 a d2 d4 d6 m1hdx m2hdx x +
        Real.sqrt (alpha2_D x0 xp0 a d2 d4 d6 m1hdx m2hdx x)) /
          alpha2_denom d4 d6 :=
  ⟨rfl, rfl⟩

/-- Claim C3, counterexample: at the concrete state `exState`, the second
component of `step()` is `1/2`, computed from the stored estimate
`_alpha_1 = 0`, whereas the `alpha2` solve fed the freshly computed first
component `-(1/2)` yields `0` — refuting "a2' is computed using the
freshly computed a1' (not the stale α1 estimate)". -/
theorem C3_step_uses_stale_alpha1 :
    (IterWalker.step exState).2 ≠
      alpha2 exState.source.x exState.source.xp (IterWalker.step exState).1
        exState.mirror_1.z exState.mirror_2.z exState.imager_2.z
        exState.mirror_1.x exState.mirror_2.x (IterWalker.goal_x_2 exState) := by
  rw [step_exState_snd, step_exState_fst]
  have hR : alpha2 exState.source.x exState.source.xp (-(1/2))
      exState.mirror_1.z exState.mirror_2.z exState.imager_2.z
      exState.mirror_1.x exState.mirror_2.x (IterWalker.goal_x_2 exState) = 0 := by
    rw [goal_x_2_exState]
    exact alpha2_fresh_exState
  rw [hR]; norm_num

/-- Claim C3, amended: `step()` returns the pair of solves both taken on
the current state — `a1'` from the `alpha1` solve at the stored `_alpha_2`
and `goal_x_1`, and `a2'` from the `alpha2` solve at the stored `_alpha_1`
(the estimate held before the call, not the freshly computed `a1'`) and
`goal_x_2`; being a pure function of the state, `step()` writes nothing to
the mirrors. -/
theorem C3_step_returns_solves_on_current_state (s : IterWalker) :
    IterWalker.step s =
      (alpha1 s.source.x s.source.xp s.alpha_2 s.mirror_1.z s.mirror_2.z
        s.imager_1.z s.mirror_1.x s.mirror_2.x (IterWalker.goal_x_1 s),
       alpha2 s.source.x s.source.xp s.alpha_1 s.mirror_1.z s.mirror_2.z
        s.imager_2.z s.mirror_1.x s.mirror_2.x (IterWalker.goal_x_2 s)) :=
  rfl

/-- Claim C4: `align` refines exactly `max_n` times unconditionally (the
returned pair is the loop body iterated exactly `max_n` times on the
state with updated targets — no convergence test shortens the budget);
with `move=True` the actuator write log is exactly one write of the final
pair to each mirror, issued after the loop; with `move=False` the write
log is empty and both mirror device states are unchanged. -/
theorem C4_align_budget_and_commit (s : IterWalker) (p1 p2 : Option ℝ) :
    (IterWalker.align s p1 p2 (PyVal.pyBool true)).2.2 =
      ((IterWalker.refine^[s.max_n]
          { s with p1 := p1.getD s.p1, p2 := p2.getD s.p2 }).alpha_1,
       (IterWalker.refine^[s.max_n]
          { s with p1 := p1.getD s.p1, p2 := p2.getD s.p2 }).alpha_2) ∧
    (IterWalker.align s p1 p2 (PyVal.pyBool true)).2.1 =
      [("mirror_1.alpha", (IterWalker.align s p1 p2 (PyVal.pyBool true)).2.2.1),
       ("mirror_2.alpha", (IterWalker.align s p1 p2 (PyVal.pyBool true)).2.2.2)] ∧
    (IterWalker.align s p1 p2 (PyVal.pyBool false)).2.1 = [] ∧
    (IterWalker.align s p1 p2 (PyVal.pyBool false)).1.mirror_1 = s.mirror_1 ∧
    (IterWalker.align s p1 p2 (PyVal.pyBool false)).1.mirror_2 = s.mirror_2 := by
  refine ⟨rfl, rfl, rfl, ?_, ?_⟩
  · show (IterWalker.refine^[s.max_n]
        { s with p1 := p1.getD s.p1, p2 := p2.getD s.p2 }).mirror_1 = s.mirror_1
    exact (refine_iterate_devices s.max_n _).1
  · show (IterWalker.refine^[s.max_n]
        { s with p1 := p1.getD s.p1, p2 := p2.getD s.p2 }).mirror_2 = s.mirror_2
    exact (refine_iterate_devices s.max_n _).2

/-- Claim C5, counterexample: at `exStateStale` the mirror-2 device angle
is `6/17` while the walker's stored estimate `_alpha_2` is still the `0`
read at construction.  `_alpha_1_calc` returns `-(1/2)` (the solve at the
stored estimate), not the `-(1/17)` the solve at the freshly read device
angle would give — refuting "the companion mirror's angle used by the
solve is freshly read from the device at the moment of the
computation". -/
theorem C5_calc_ignores_device_angle :
    IterWalker.alpha_1_calc exStateStale ≠
      alpha1 exStateStale.source.x exStateStale.source.xp
        exStateStale.mirror_2.alpha exStateStale.mirror_1.z
        exStateStale.mirror_2.z exStateStale.imager_1.z
        exStateStale.mirror_1.x exStateStale.mirror_2.x
        (IterWalker.goal_x_1 exStateStale) := by
  have hL : IterWalker.alpha_1_calc exStateStale = -(1/2) := by
    unfold IterWalker.alpha_1_calc alpha1 IterWalker.goal_x_1 exStateStale exState
    norm_num
  have hgoal : IterWalker.goal_x_1 exStateStale = -1 := by
    unfold IterWalker.goal_x_1 exStateStale exState; norm_num
  have hR : alpha1 exStateStale.source.x exStateStale.source.xp
      exStateStale.mirror_2.alpha exStateStale.mirror_1.z
      exStateStale.mirror_2.z exStateStale.imager_1.z
      exStateStale.mirror_1.x exStateStale.mirror_2.x
      (IterWalker.goal_x_1 exStateStale) = -(1/17) := by
    rw [hgoal]
    show alpha1 0 0 (6/17) 0 2 1 0 0 (-1) = -(1/17)
    exact alpha1_device_exStateStale
  rw [hL, hR]; norm_num

/-- Claim C5, amended: each geometry computation uses the walker's
internal estimate of the companion mirror's angle (`_alpha_1` or
`_alpha_2`) — a value read from the device once, at construction, and
thereafter updated only by `align`'s own loop — not a value re-read from
the device at the moment of the computation. -/
theorem C5_calc_uses_stored_estimates (s : IterWalker) (source : Source)
    (mirror_1 mirror_2 : Mirror) (imager_1 imager_2 : Imager)
    (p1 p2 : ℝ) (max_n : ℕ) :
    IterWalker.alpha_1_calc s =
      alpha1 s.source.x s.source.xp s.alpha_2 s.mirror_1.z s.mirror_2.z
        s.imager_1.z s.mirror_1.x s.mirror_2.x (IterWalker.goal_x_1 s) ∧
    IterWalker.alpha_2_calc s =
      alpha2 s.source.x s.source.xp s.alpha_1 s.mirror_1.z s.mirror_2.z
        s.imager_2.z s.mirror_1.x s.mirror_2.x (IterWalker.goal_x_2 s) ∧
    (IterWalker.init source mirror_1 mirror_2 imager_1 imager_2
        p1 p2 max_n).alpha_1 = mirror_1.alpha ∧
    (IterWalker.init source mirror_1 mirror_2 imager_1 imager_2
        p1 p2 max_n).alpha_2 = mirror_2.alpha :=
  ⟨rfl, rfl, rfl, rfl⟩

/-- Claim C6: with no model available and no load request,
`walk(mode="model")` fails before any device I/O — but with `NameError`
(the unbound name `kwargs` in `walk`'s first statement), not with the
no-model `CNCException` the claim names; the dispatch to `_modelwalk` and
its `CNCException` check are never reached. -/
theorem C6_walk_model_raises_nameError :
    Skywalker.walk noModelSky "model" =
      ([], Except.error PyError.nameError) :=
  rfl

/-- Claim C7: `walk(mode="iter")` does not loop until the centroid pair
matches the targets: it fails immediately with `NameError` (the unbound
name `kwargs`), performing no device I/O and no `IterWalker.step`; and
even with that name bound, the guard of `while not self._converged:`
negates a truthy bound-method object, so it is constantly false and the
loop body would run zero times regardless of the centroids. -/
theorem C7_walk_iter_never_steps :
    Skywalker.walk noModelSky "iter" =
        ([], Except.error PyError.nameError) ∧
      Skywalker.iterLoopGuard = false :=
  ⟨rfl, rfl⟩

/-- Claim C9: with iteration budget `max_n = 0`, `align` (with its default
`move=False`) returns exactly the angle estimates held before the call,
logs no actuator write, and leaves both mirror device states unchanged. -/
theorem C9_align_zero_budget (s : IterWalker) (p1 p2 : Option ℝ)
    (h : s.max_n = 0) :
    (IterWalker.align s p1 p2 (PyVal.pyBool false)).2.2 =
        (s.alpha_1, s.alpha_2) ∧
      (IterWalker.align s p1 p2 (PyVal.pyBool false)).2.1 = [] ∧
      (IterWalker.align s p1 p2 (PyVal.pyBool false)).1.mirror_1 =
        s.mirror_1 ∧
      (IterWalker.align s p1 p2 (PyVal.pyBool false)).1.mirror_2 =
        s.mirror_2 := by
  unfold IterWalker.align
  simp only [h, Function.iterate_zero, id]
  refine ⟨?_, ?_, ?_, ?_⟩ <;> trivial

/-- Claim C9, witness: the zero-budget walker `zeroBudgetWalker`
(estimates `3` and `5`) satisfies the statement at concrete inputs. -/
theorem C9_align_zero_budget_check :
    (IterWalker.align zeroBudgetWalker none none (PyVal.pyBool false)).2.2 =
        (zeroBudgetWalker.alpha_1, zeroBudgetWalker.alpha_2) ∧
      (IterWalker.align zeroBudgetWalker none none
          (PyVal.pyBool false)).2.1 = [] ∧
      (IterWalker.align zeroBudgetWalker none none
          (PyVal.pyBool false)).1.mirror_1 = zeroBudgetWalker.mirror_1 ∧
      (IterWalker.align zeroBudgetWalker none none
          (PyVal.pyBool false)).1.mirror_2 = zeroBudgetWalker.mirror_2 :=
  C9_align_zero_budget zeroBudgetWalker none none rfl

/-- Claim C10: the guard `if move is True:` commits motion only when
`move` is identically the boolean `True`; for any other value of `move`
(including the truthy integer `1`) the write log is empty and the mirrors
are unchanged, while the returned angle pair is the same as with
`move=True`. -/
theorem C10_align_commit_requires_identity_true (s : IterWalker)
    (p1 p2 : Option ℝ) (mv : PyVal) (h : mv ≠ PyVal.pyBool true) :
    (IterWalker.align s p1 p2 mv).2.1 = [] ∧
      (IterWalker.align s p1 p2 mv).1.mirror_1 = s.mirror_1 ∧
      (IterWalker.align s p1 p2 mv).1.mirror_2 = s.mirror_2 ∧
      (IterWalker.align s p1 p2 mv).2.2 =
        (IterWalker.align s p1 p2 (PyVal.pyBool true)).2.2 := by
  unfold IterWalker.align
  simp only [if_neg h, if_pos rfl]
  refine ⟨?_, ?_, ?_, ?_⟩
  · trivial
  · exact (refine_iterate_devices _ _).1
  · exact (refine_iterate_devices _ _).2
  · trivial

/-- Claim C10, witness: the statement at the concrete state `exState`
with `move` being the truthy integer `1`. -/
theorem C10_align_commit_requires_identity_true_check :
    (IterWalker.align exState none none (PyVal.pyInt 1)).2.1 = [] ∧
      (IterWalker.align exState none none (PyVal.pyInt 1)).1.mirror_1 =
        exState.mirror_1 ∧
      (IterWalker.align exState none none (PyVal.pyInt 1)).1.mirror_2 =
        exState.mirror_2 ∧
      (IterWalker.align exState none none (PyVal.pyInt 1)).2.2 =
        (IterWalker.align exState none none (PyVal.pyBool true)).2.2 :=
  C10_align_commit_requires_identity_true exState none none (PyVal.pyInt 1)
    (by decide)

end Pswalker
